import Mathlib

/-!
Verification of the ovpn_control front-end modules against their
natural-language specification.

The JavaScript sources (`static/js/utils.js`, `static/js/server-actions.js`,
the client-management, SSH-terminal and reinstall/sync modules) are embedded
shallowly: every handler becomes a pure Lean function from its inputs
(DOM field values, dialog outcomes, the parsed API response) to the list of
observable effects it performs, in source order.  JavaScript strings are
Lean `String`s, `null`/`undefined`-able values are `Option`s, and the
JavaScript truthiness tests (`x || y`, `if (x)`) are modelled explicitly.
-/

namespace OvpnControl

/-! ## JavaScript primitives -/

/-- JavaScript `a || d` for a string-or-missing value `a`: the empty string
and a missing (`null`/`undefined`) value are falsy, anything else is kept. -/
def jsOr (o : Option String) (d : String) : String :=
  match o with
  | some s => if s = "" then d else s
  | none => d

/-- JavaScript truthiness of a string-or-missing value. -/
def jsTruthyStr (o : Option String) : Bool :=
  match o with
  | some s => s ≠ ""
  | none => false

/-- Rendering of a string-or-missing value inside a template literal:
`undefined` renders as the text "undefined". -/
def jsStr (o : Option String) : String :=
  match o with
  | some s => s
  | none => "undefined"

/-- JavaScript `list || []`-style truthiness combined with `.length > 0`:
`data.xs && data.xs.length > 0`. -/
def jsNonEmptyList (o : Option (List String)) : Bool :=
  match o with
  | some l => l.length > 0
  | none => false

/-- JavaScript `n || 0` for a number-or-missing field (`0` is falsy, so a
present `0` and a missing field both yield `0`). -/
def jsOrZero (o : Option Nat) : Nat :=
  match o with
  | some n => n
  | none => 0

/-- Model of `String.prototype.toLowerCase` restricted to the ASCII range covered by
the source's comparisons (`Char.toLower` lowers exactly `A`-`Z`). -/
def jsToLowerCase (s : String) : String :=
  ⟨s.data.map Char.toLower⟩

/-- Model of `String.prototype.toUpperCase` restricted to the ASCII range used by the
source (`Char.toUpper` raises exactly `a`-`z`). -/
def jsToUpperCase (s : String) : String :=
  ⟨s.data.map Char.toUpper⟩

/-- Model of `String.prototype.trim`: strip leading and trailing whitespace. -/
def jsTrim (s : String) : String :=
  ⟨((s.data.dropWhile Char.isWhitespace).reverse.dropWhile Char.isWhitespace).reverse⟩

/-! ## utils.js: validation helpers -/

/-- One character of the class `[a-zA-Z0-9_-]` from
`isValidClientName` (utils.js line 154). -/
def isNameChar (c : Char) : Bool :=
  ('a' ≤ c && c ≤ 'z') || ('A' ≤ c && c ≤ 'Z') || ('0' ≤ c && c ≤ '9') ||
    c = '_' || c = '-'

/-- Function `isValidClientName` (utils.js lines 153-156): the regex
`^[a-zA-Z0-9_-]+$` — one or more characters of the class, nothing else. -/
def isValidClientName (name : String) : Bool :=
  name.data ≠ [] && name.data.all isNameChar

/-- One character of the class `[^\s@]` from `isValidEmail`. -/
def isEmailChar (c : Char) : Bool :=
  !c.isWhitespace && c ≠ '@'

/-- Function `isValidEmail` (utils.js lines 143-146): the regex
`^[^\s@]+@[^\s@]+\.[^\s@]+$`.  It matches exactly the strings of the form
`a ++ "@" ++ b ++ "." ++ c` with `a`, `b`, `c` non-empty and free of
whitespace and `@`; equivalently: exactly one `@`, no whitespace, a
non-empty part before the `@`, and a `.` strictly inside the part after it
(first and last position excluded). -/
def isValidEmail (email : String) : Bool :=
  match email.splitOn "@" with
  | [a, b] =>
      a.data ≠ [] && a.data.all isEmailChar && b.data.all isEmailChar &&
        ((b.data.drop 1).dropLast.contains '.')
  | _ => false

/-! ## utils.js: escapeHtml and the terminal HTML pipeline -/

/-- The replacement map of `escapeHtml` (utils.js lines 128-134). -/
def escapeMap : List (Char × String) :=
  [('&', "&amp;"), ('<', "&lt;"), ('>', "&gt;"), ('"', "&quot;"),
   ('\'', "&#039;")]

/-- The action of `text.replace(/[&<>"']/g, m => map[m])` on one
character: a global single-character-class replace substitutes each
matching character independently and keeps the rest. -/
def escPiece (c : Char) : List Char :=
  match escapeMap.lookup c with
  | some r => r.data
  | none => [c]

/-- Function `escapeHtml` (utils.js lines 127-136): the global replace
`text.replace(/[&<>"']/g, m => map[m])`. -/
def escapeHtml (text : String) : String :=
  ⟨text.data.flatMap escPiece⟩

/-- The action of `.replace(/\n/g, '<br>')` (terminal module,
`appendToTerminal`) on one character. -/
def brPiece (c : Char) : List Char :=
  if c = '\n' then "<br>".data else [c]

/-- The action of `.replace(/ /g, '&nbsp;')` (terminal module,
`appendToTerminal`) on one character. -/
def nbspPiece (c : Char) : List Char :=
  if c = ' ' then "&nbsp;".data else [c]

/-- The HTML string `appendToTerminal` (terminal module lines 95-108)
assigns to `newContent.innerHTML`:
`escapeHtml(text).replace(/\n/g, '<br>').replace(/ /g, '&nbsp;')`. -/
def terminalHtml (text : String) : String :=
  ⟨((escapeHtml text).data.flatMap brPiece).flatMap nbspPiece⟩

/-! ## client module: filename extraction in downloadClientConfig -/

/-- The capture group of `contentDisposition.match(/filename="?(.+)"?/)`
(client module, `downloadClientConfig` lines 145-148), as the JavaScript
regex engine evaluates it: scan left to right for the first position where
the pattern matches; at a match position, after the literal `filename=`,
the optional quote consumes a leading `"` when at least one character
follows it (`.+` needs one), and the greedy `.+` then captures everything
to the end of the line — the trailing `"?` is satisfied by the empty
string, so a closing quote is captured, not stripped. -/
def filenameCapture : List Char → Option (List Char)
  | [] => none
  | c :: rest =>
    if "filename=".data.isPrefixOf (c :: rest) then
      match (c :: rest).drop 9 with
      | [] => filenameCapture rest
      | ['"'] => some ['"']
      | '"' :: t => some t
      | t => some t
    else filenameCapture rest

/-- The filename `downloadClientConfig` saves under (client module lines
142-149): the regex capture from the `Content-Disposition` header when the
header is present and matches, else the default `{clientName}.ovpn`. -/
def downloadFilename (clientName : String) (contentDisposition : Option String) :
    String :=
  match contentDisposition with
  | none => clientName ++ ".ovpn"
  | some cd =>
    match filenameCapture cd.data with
    | some g => ⟨g⟩
    | none => clientName ++ ".ovpn"

/-! ## utils.js: apiRequest -/

/-- A minimal JSON value model for response bodies. -/
inductive JVal where
  | str (s : String)
  | num (n : Int)
  | bool (b : Bool)
  | null
  | arr (xs : List JVal)
  | obj (fields : List (String × JVal))

/-- JavaScript member access `data.f` on a parsed JSON object: the field's
value when present, `undefined` (here `none`) otherwise or on non-objects. -/
def JVal.getField (v : JVal) (f : String) : Option JVal :=
  match v with
  | .obj fields => fields.lookup f
  | _ => none

/-- JavaScript truthiness of a JSON value. -/
def JVal.truthy (v : JVal) : Bool :=
  match v with
  | .str s => s ≠ ""
  | .num n => n ≠ 0
  | .bool b => b
  | .null => false
  | .arr _ => true
  | .obj _ => true

/-- JavaScript `String(v)` as applied by the `Error` constructor to its
message argument.  An array stringifies via `Array.prototype.join(',')`:
its elements are stringified and joined with commas, with `null` elements
contributing the empty string (`String([1,2])` is `"1,2"`, `String([null])`
is `""`), while a top-level `null` gives `"null"`. -/
def JVal.display (v : JVal) : String :=
  match v with
  | .str s => s
  | .num n => toString n
  | .bool b => if b then "true" else "false"
  | .null => "null"
  | .arr xs =>
    String.intercalate "," (xs.attach.map fun x =>
      match x with
      | ⟨.null, _⟩ => ""
      | ⟨v, _⟩ => v.display)
  | .obj _ => "[object Object]"

/-- The reading `apiRequest` makes of a fetch response: the `ok` flag, the
numeric status, and the outcome of `response.json()` (`none` when the body
is not valid JSON, so that call rejects). -/
structure FetchResponse where
  ok : Bool
  status : Nat
  body : Option JVal

/-- The result of `apiRequest`: the parsed body on the success path, a
thrown `Error` with its message on the explicit throw, or the rejection of
`response.json()` itself when an ok response's body fails to parse (the
success path has no `.catch`). -/
inductive ApiReqResult where
  | ok (data : JVal)
  | thrown (msg : String)
  | jsonRejection

/-- Function `apiRequest` (utils.js lines 174-199), from the fetch response on:
on `!response.ok` the body is parsed with `.catch(() => ({}))` and
`Error(data.error || 'HTTP error! status: ...')` is thrown; on an ok
response `response.json()` is returned with no catch. -/
def apiRequest (r : FetchResponse) : ApiReqResult :=
  if r.ok then
    match r.body with
    | some j => .ok j
    | none => .jsonRejection
  else
    let data := r.body.getD (.obj [])
    let httpMsg := "HTTP error! status: " ++ toString r.status
    match data.getField "error" with
    | some v => if v.truthy then .thrown v.display else .thrown httpMsg
    | none => .thrown httpMsg

/-- Whether an `apiRequest` result is a throw/rejection of any kind. -/
def ApiReqResult.throws (r : ApiReqResult) : Bool :=
  match r with
  | .ok _ => false
  | .thrown _ => true
  | .jsonRejection => true

/-! ## Effects of the UI handlers

Each `async function` of the source is embedded as a pure function from its
inputs — the DOM field values, the outcomes of the blocking dialogs
(`confirm`/`prompt`), the connection flag `isConnected`, and the settled
outcome of its `apiRequest` call — to the list of observable effects it
performs, in source order. -/

/-- The request bodies the handlers serialize with `JSON.stringify`. -/
inductive RequestBody where
  | noBody
  | emptyObj
  | createClient (client_name : String) (email : Option String)
  | sshKey (password key_type : String) (clear_password : Bool)
  deriving DecidableEq, Repr

/-- One observable effect of a handler. -/
inductive Effect where
  | consoleLog (s : String)
  | consoleError (s : String)
  | showStatus (msg ty : String)
  | showAlert (msg title : String)
  | apiPost (url : String) (body : RequestBody)
  | fetchGet (url : String)
  | buttonLoading (selector msg : String)
  | buttonRestore (selector : String)
  | appendTerminal (s : String)
  | reloadPage (delayMs : Nat)
  | saveBlob (filename : String)
  | showPrompt (msg : String)
  | modalHide
  | formReset
  deriving DecidableEq, Repr

/-- Is the effect an `apiRequest` dispatch? -/
def Effect.isApiPost : Effect → Bool
  | .apiPost _ _ => true
  | _ => false

/-- Is the effect a write to the console log (`console.log`/`console.error`)
or to the on-page status display (`showStatus`)? -/
def Effect.isLogOrStatus : Effect → Bool
  | .consoleLog _ => true
  | .consoleError _ => true
  | .showStatus _ _ => true
  | _ => false

/-- Everything except the two console channels: a request, a DOM mutation
(status display, alert, button state, terminal, modal, form), a page
reload, or a blob download. -/
def Effect.isStateChange : Effect → Bool
  | .consoleLog _ => false
  | .consoleError _ => false
  | _ => true

/-- The settled outcome of an `await apiRequest(...)`: either the parsed
data (typed per endpoint) or a caught `Error` with the fields the handlers
read off it. -/
inductive Outcome (α : Type) where
  | ok (data : α)
  | err (message : String) (stack : String) (output : Option String)
  deriving DecidableEq, Repr

/-- Function `handleApiError(error, context)` (utils.js lines 163-166):
`console.error` of the context followed by an alert titled "Ошибка". -/
def handleApiError (message context : String) : List Effect :=
  [.consoleError (context ++ " error:"),
   .showAlert (context ++ ": " ++ message) "Ошибка"]

/-! ## client module: createClient -/

/-- The fields `createClient` reads off a create-client response. -/
structure CreateClientData where
  success : Bool
  client_id : Option String
  message : Option String
  error : Option String
  output : Option String
  deriving DecidableEq, Repr

/-- Function `createClient` (client module lines 22-108).  Inputs: the raw values of
the `clientName` and `clientEmail` fields (the function trims both), the
server id from the page, the global `isConnected` flag, and the settled
outcome of the `apiRequest` call. -/
def createClientEffects (rawName rawEmail serverId : String) (isConnected : Bool)
    (outcome : Outcome CreateClientData) : List Effect :=
  let clientName := jsTrim rawName
  let clientEmail := jsTrim rawEmail
  if clientName = "" then
    [.showAlert "Введите имя клиента" ""]
  else if !isValidClientName clientName then
    [.showAlert "Имя клиента может содержать только латинские буквы, цифры, дефис и подчеркивание" ""]
  else if clientEmail ≠ "" && !isValidEmail clientEmail then
    [.showAlert "Введите корректный email адрес" ""]
  else
    [.consoleLog ("Creating client: " ++ clientName ++ " for server: " ++ serverId),
     .buttonLoading "createClientBtn" "Создаем...",
     .apiPost ("/api/servers/" ++ serverId ++ "/create-client/")
       (.createClient clientName (if clientEmail ≠ "" then some clientEmail else none))] ++
    (match outcome with
     | .ok data =>
       [.consoleLog "API Response data:"] ++
       (if data.success then
         [.showAlert ("Клиент \"" ++ clientName ++ "\" успешно создан!\n\nID: " ++
            jsStr data.client_id ++
            "\n\nТеперь вы можете скачать конфигурационный файл .ovpn") "Успешно",
          .modalHide, .formReset] ++
         (if jsTruthyStr data.output && isConnected then
           [.appendTerminal "\n=== Client Creation Output ===\n",
            .appendTerminal (jsStr data.output ++ "\n"),
            .appendTerminal "=== Client Created Successfully ===\n"]
          else []) ++
         [.reloadPage 1500]
        else
         [.showAlert ("Ошибка создания клиента: " ++
            jsOr data.error (jsOr data.message "Неизвестная ошибка")) "Ошибка"] ++
         (if jsTruthyStr data.output && isConnected then
           [.appendTerminal "\n=== Client Creation Error ===\n",
            .appendTerminal (jsStr data.output ++ "\n")] ++
           (if jsTruthyStr data.error then
             [.appendTerminal ("Error: " ++ jsStr data.error ++ "\n")] else []) ++
           [.appendTerminal "=== End Error ===\n"]
          else []))
     | .err msg _ _ => handleApiError msg "Ошибка создания клиента") ++
    [.consoleLog "Client creation request completed", .buttonRestore "createClientBtn"]

/-! ## server-actions.js: generateSSHKey -/

/-- The fields `generateSSHKey` reads off a generate-ssh-key response. -/
structure SSHKeyData where
  success : Bool
  message : Option String
  public_key : Option String
  key_type : String
  error : Option String
  deriving DecidableEq, Repr

/-- Function `generateSSHKey` (server-actions.js lines 10-78).  Inputs: the prompted
password (`""` stands for an empty entry or a cancelled prompt — both falsy
in the source's `if (!password)`), the two `confirm` answers (key type and
clear-password), the `confirm` answer for showing the public key, and the
settled outcome of the `apiRequest` call. -/
def generateSSHKeyEffects (serverId password : String)
    (useEd25519 clearPassword showKeyOk : Bool)
    (outcome : Outcome SSHKeyData) : List Effect :=
  if password = "" then
    [.showStatus "Отменено: пароль не введен" "warning"]
  else
    let keyType := if useEd25519 then "ed25519" else "rsa"
    [.consoleLog ("Generating " ++ keyType ++ " SSH key for server: " ++ serverId),
     .showStatus ("Генерируем " ++ jsToUpperCase keyType ++
       " SSH ключ и устанавливаем на сервер...") "info",
     .buttonLoading "generateSSHKey" "Генерируем...",
     .apiPost ("/api/servers/" ++ serverId ++ "/generate-ssh-key/")
       (.sshKey password keyType clearPassword)] ++
    (match outcome with
     | .ok data =>
       [.consoleLog "SSH Key Generation Response:"] ++
       (if data.success then
         [.showStatus (jsStr data.message) "success"] ++
         (if jsTruthyStr data.public_key then
           (if showKeyOk then [.showPrompt (jsStr data.public_key)] else [])
          else []) ++
         [.reloadPage 1000]
        else
         [.showStatus ("Ошибка генерации ключа: " ++
            jsOr data.error "Неизвестная ошибка") "danger"])
     | .err msg _ _ =>
       [.consoleError ("Error generating SSH key: " ++ msg),
        .showStatus ("Ошибка: " ++ msg) "danger"]) ++
    [.buttonRestore "generateSSHKey"]

/-! ## server-actions.js: install / configure / start -/

/-- The fields the three simple lifecycle handlers read off a response. -/
structure LifecycleData where
  success : Bool
  message : Option String
  error : Option String
  output : Option String
  deriving DecidableEq, Repr

/-- Function `installOpenVPN` (server-actions.js lines 84-139).  `confirmed` is the
answer of the opening `confirmAction` dialog. -/
def installOpenVPNEffects (serverId : String) (confirmed isConnected : Bool)
    (outcome : Outcome LifecycleData) : List Effect :=
  if !confirmed then []
  else
    [.consoleLog ("Starting OpenVPN installation for server: " ++ serverId),
     .showStatus "Устанавливаем OpenVPN..." "info",
     .buttonLoading "installOpenVPN" "Устанавливаем...",
     .apiPost ("/api/servers/" ++ serverId ++ "/install-openvpn/") .noBody] ++
    (match outcome with
     | .ok data =>
       [.consoleLog "API Response data:"] ++
       (if data.success then
         [.showStatus (jsStr data.message) "success"] ++
         (if jsTruthyStr data.output && isConnected then
           [.appendTerminal "\n=== OpenVPN Installation Output ===\n",
            .appendTerminal (jsStr data.output ++ "\n"),
            .appendTerminal "=== Installation Complete ===\n"]
          else []) ++
         [.reloadPage 2000]
        else
         [.showStatus ("Ошибка установки: " ++
            jsOr data.error (jsOr data.message "Неизвестная ошибка")) "danger"] ++
         (if jsTruthyStr data.output && isConnected then
           [.appendTerminal "\n=== Installation Error ===\n",
            .appendTerminal (jsStr data.output ++ "\n")] ++
           (if jsTruthyStr data.error then
             [.appendTerminal ("Error: " ++ jsStr data.error ++ "\n")] else []) ++
           [.appendTerminal "=== End Error ===\n"]
          else []))
     | .err msg _ _ => handleApiError msg "Ошибка установки") ++
    [.consoleLog "Installation request completed", .buttonRestore "installOpenVPN"]

/-- Function `configureOpenVPN` (server-actions.js lines 145-196). -/
def configureOpenVPNEffects (serverId : String) (confirmed isConnected : Bool)
    (outcome : Outcome LifecycleData) : List Effect :=
  if !confirmed then []
  else
    [.consoleLog ("Starting OpenVPN configuration for server: " ++ serverId),
     .showStatus "Настраиваем OpenVPN сервер..." "info",
     .buttonLoading "configureOpenVPN" "Настраиваем...",
     .apiPost ("/api/servers/" ++ serverId ++ "/configure-openvpn/") .emptyObj] ++
    (match outcome with
     | .ok data =>
       [.consoleLog "API Response data:"] ++
       (if data.success then
         [.showStatus (jsStr data.message) "success"] ++
         (if jsTruthyStr data.output && isConnected then
           [.appendTerminal "\n=== OpenVPN Configuration Output ===\n",
            .appendTerminal (jsStr data.output ++ "\n"),
            .appendTerminal "=== Configuration Complete ===\n"]
          else [])
        else
         [.showStatus ("Ошибка настройки: " ++
            jsOr data.error (jsOr data.message "Неизвестная ошибка")) "danger"] ++
         (if jsTruthyStr data.output && isConnected then
           [.appendTerminal "\n=== Configuration Error ===\n",
            .appendTerminal (jsStr data.output ++ "\n")] ++
           (if jsTruthyStr data.error then
             [.appendTerminal ("Error: " ++ jsStr data.error ++ "\n")] else []) ++
           [.appendTerminal "=== End Error ===\n"]
          else []))
     | .err msg _ _ => handleApiError msg "Ошибка настройки") ++
    [.consoleLog "Configuration request completed", .buttonRestore "configureOpenVPN"]

/-- Function `startOpenVPN` (server-actions.js lines 202-254). -/
def startOpenVPNEffects (serverId : String) (confirmed isConnected : Bool)
    (outcome : Outcome LifecycleData) : List Effect :=
  if !confirmed then []
  else
    [.consoleLog ("Starting OpenVPN server for server: " ++ serverId),
     .showStatus "Запускаем OpenVPN сервер..." "info",
     .buttonLoading "startOpenVPN" "Запускаем...",
     .apiPost ("/api/servers/" ++ serverId ++ "/start-openvpn/") .noBody] ++
    (match outcome with
     | .ok data =>
       [.consoleLog "API Response data:"] ++
       (if data.success then
         [.showStatus "OpenVPN сервер успешно запущен!" "success"] ++
         (if jsTruthyStr data.output && isConnected then
           [.appendTerminal "\n=== OpenVPN Start Output ===\n",
            .appendTerminal (jsStr data.output ++ "\n"),
            .appendTerminal "=== Server Started ===\n"]
          else []) ++
         [.reloadPage 2000]
        else
         [.showStatus ("Ошибка запуска: " ++
            jsOr data.error (jsOr data.message "Неизвестная ошибка")) "danger"] ++
         (if jsTruthyStr data.output && isConnected then
           [.appendTerminal "\n=== Start Error ===\n",
            .appendTerminal (jsStr data.output ++ "\n")] ++
           (if jsTruthyStr data.error then
             [.appendTerminal ("Error: " ++ jsStr data.error ++ "\n")] else []) ++
           [.appendTerminal "=== End Error ===\n"]
          else []))
     | .err msg _ _ => handleApiError msg "Ошибка запуска") ++
    [.consoleLog "Start request completed", .buttonRestore "startOpenVPN"]

/-! ## server-actions.js: checkStatus -/

/-- The fields `checkStatus` reads off a check-status response. -/
structure StatusData where
  success : Bool
  status : String
  error : Option String
  deriving DecidableEq, Repr

/-- The object literal of `checkStatus` (server-actions.js lines 270-274)
mapping the three known status literals to display labels. -/
def statusTextMap : List (String × String) :=
  [("running", "✅ Работает"), ("stopped", "⛔ Остановлен"),
   ("error", "❌ Ошибка")]

/-- The property names every plain object literal inherits from
`Object.prototype`: reading one of these keys on `{...}` yields the
inherited method (or, for `__proto__`, the prototype object itself) — a
truthy value — rather than `undefined`. -/
def protoProps : List String :=
  ["constructor", "hasOwnProperty", "isPrototypeOf", "propertyIsEnumerable",
   "toLocaleString", "toString", "valueOf", "__defineGetter__",
   "__defineSetter__", "__lookupGetter__", "__lookupSetter__", "__proto__"]

/-- The string a template literal renders for the value inherited from
`Object.prototype` at `key`: `__proto__` yields `Object.prototype` itself
(`"[object Object]"`), `constructor` yields the `Object` function, and the
rest are the native methods of the same name, all printing in the
ECMAScript NativeFunction form. -/
def protoDisplay (key : String) : String :=
  if key = "__proto__" then "[object Object]"
  else if key = "constructor" then "function Object() \x7b [native code] \x7d"
  else "function " ++ key ++ "() \x7b [native code] \x7d"

/-- JavaScript property read `obj[key]` on an object literal with own
string-valued entries `own`: an own property when present, else the
property inherited from `Object.prototype` (represented by the string the
page would display for it — all inherited values are truthy, which is what
the subsequent `||` and template literal observe), else `undefined`. -/
def jsObjGet (own : List (String × String)) (key : String) : Option String :=
  match own.lookup key with
  | some v => some v
  | none => if key ∈ protoProps then some (protoDisplay key) else none

/-- Function `checkStatus` (server-actions.js lines 260-288).  The displayed status
text is `{...}[data.status] || data.status`: the label when the literal is
an own key of the map, the inherited `Object.prototype` member when the
literal is one of its property names, the literal itself otherwise. -/
def checkStatusEffects (serverId : String) (outcome : Outcome StatusData) :
    List Effect :=
  [.consoleLog ("Checking server status: " ++ serverId),
   .showStatus "Проверяем статус сервера..." "info",
   .apiPost ("/api/servers/" ++ serverId ++ "/check-status/") .noBody] ++
  match outcome with
  | .ok data =>
    if data.success then
      [.showStatus ("Статус сервера: " ++ jsOr (jsObjGet statusTextMap data.status) data.status)
         (if data.status = "running" then "success" else "warning"),
       .reloadPage 1000]
    else
      [.showStatus ("Ошибка: " ++ jsStr data.error) "danger"]
  | .err msg _ _ =>
    [.consoleError ("Error checking status: " ++ msg),
     .showStatus ("Ошибка при проверке статуса: " ++ msg) "danger"]

/-! ## reinstall module: reinstallOpenVPN -/

/-- The fields `reinstallOpenVPN` reads off a reinstall response. -/
structure ReinstallData where
  success : Bool
  message : Option String
  steps : Option (List String)
  service_running : Option Bool
  error : Option String
  deriving DecidableEq, Repr

/-- The five progress messages of `reinstallOpenVPN`'s interval timer. -/
def progressMessages : List String :=
  ["Останавливаем OpenVPN сервер...", "Удаляем старые конфигурации...",
   "Переустанавливаем OpenVPN...", "Настраиваем сервер...",
   "Запускаем OpenVPN..."]

/-- Function `reinstallOpenVPN` (reinstall module lines 354-475).  Inputs: the
answer of the first `confirmAction` dialog, the `prompt` result
(`none` = cancelled), the number of 3-second ticks the progress interval
fires before `clearInterval` (the handler shows at most the five fixed
messages), the `isConnected` flag and the settled `apiRequest` outcome.
The dispatch guard is the source's
`!confirmText || (confirmText !== 'REINSTALL' && confirmText.toLowerCase() !== 'reinstall')`. -/
def reinstallOpenVPNEffects (serverId : String) (confirmed : Bool)
    (confirmText : Option String) (progressTicks : Nat) (isConnected : Bool)
    (outcome : Outcome ReinstallData) : List Effect :=
  [.consoleLog ("reinstallOpenVPN function called with serverId: " ++ serverId)] ++
  if !confirmed then []
  else
    match confirmText with
    | none => [.showStatus "Переустановка отменена" "warning"]
    | some t =>
      if t = "" || (t ≠ "REINSTALL" && jsToLowerCase t ≠ "reinstall") then
        [.showStatus "Переустановка отменена" "warning"]
      else
        [.consoleLog ("Starting complete OpenVPN reinstallation for server: " ++ serverId),
         .showStatus "⚙️ Запускаем полную переустановку OpenVPN..." "warning",
         .buttonLoading "reinstallOpenVPN" "Переустанавливаем..."] ++
        (progressMessages.take (min progressTicks 5)).map
          (fun m => .showStatus ("⏳ " ++ m) "info") ++
        [.apiPost ("/api/servers/" ++ serverId ++ "/reinstall-openvpn/") .noBody] ++
        (match outcome with
         | .ok data =>
           [.consoleLog "Reinstallation API Response:"] ++
           (if data.success then
             [.showStatus ("✅ " ++ jsStr data.message) "success"] ++
             (if data.steps.isSome && isConnected then
               [.appendTerminal "\n=== OpenVPN Reinstallation Steps ===\n"] ++
               (data.steps.getD []).map (fun step => .appendTerminal (step ++ "\n")) ++
               [.appendTerminal "=== Reinstallation Complete ===\n"]
              else []) ++
             (match data.service_running with
              | some b =>
                [.showStatus (if b then "✅ OpenVPN сервер работает"
                   else "⚠️ OpenVPN установлен, но не запущен (проверьте логи)")
                   (if b then "success" else "warning")]
              | none => []) ++
             [.showStatus "Страница будет перезагружена через 3 секунды..." "info",
              .reloadPage 3000]
            else
             [.showStatus ("❌ Ошибка переустановки: " ++
                jsOr data.error (jsOr data.message "Неизвестная ошибка")) "danger"] ++
             (if data.steps.isSome && isConnected then
               [.appendTerminal "\n=== Reinstallation Error ===\n"] ++
               (data.steps.getD []).map (fun step => .appendTerminal (step ++ "\n")) ++
               (if jsTruthyStr data.error then
                 [.appendTerminal ("\nError: " ++ jsStr data.error ++ "\n")] else []) ++
               [.appendTerminal "=== End Error ===\n"]
              else []))
         | .err msg stack _ =>
           [.consoleError ("Error reinstalling OpenVPN: " ++ msg),
            .showStatus ("❌ Ошибка: " ++ msg) "danger"] ++
           (if isConnected then
             [.appendTerminal "\n=== Reinstallation Failed ===\n",
              .appendTerminal ("Error: " ++ msg ++ "\n"),
              .appendTerminal ("Stack: " ++ stack ++ "\n"),
              .appendTerminal "=== End Error ===\n"]
            else [])) ++
        [.consoleLog "Reinstallation request completed",
         .buttonRestore "reinstallOpenVPN"]

/-! ## sync module: syncClients -/

/-- The fields `syncClients` reads off a sync-clients response. -/
structure SyncData where
  success : Bool
  message : Option String
  clients_on_server : Option Nat
  clients_in_db : Option Nat
  clients_removed : Option Nat
  orphaned_clients : Option (List String)
  new_clients : Option (List String)
  error : Option String
  deriving DecidableEq, Repr

/-- Function `syncClients` (sync module lines 481-522). -/
def syncClientsEffects (serverId : String) (outcome : Outcome SyncData) :
    List Effect :=
  [.consoleLog ("Syncing clients for server: " ++ serverId),
   .showStatus "🔄 Синхронизируем клиентов с сервером..." "info",
   .apiPost ("/api/servers/" ++ serverId ++ "/sync-clients/") .noBody] ++
  match outcome with
  | .ok data =>
    [.consoleLog "Sync Clients Response:"] ++
    if data.success then
      [.showStatus ("✅ " ++ jsStr data.message ++ "\n" ++
         "Клиентов на сервере: " ++ toString (jsOrZero data.clients_on_server) ++ "\n" ++
         "Клиентов в БД: " ++ toString (jsOrZero data.clients_in_db) ++ "\n" ++
         "Удалено: " ++ toString (jsOrZero data.clients_removed)) "success"] ++
      (if jsNonEmptyList data.orphaned_clients then
        [.consoleLog "Removed orphaned clients:"] else []) ++
      (if jsNonEmptyList data.new_clients then
        [.consoleLog "New clients on server:",
         .showStatus ("⚠️ На сервере найдены новые клиенты, которых нет в БД: " ++
           String.intercalate ", " (data.new_clients.getD [])) "warning"]
       else []) ++
      [.reloadPage 2000]
    else
      [.showStatus ("❌ Ошибка синхронизации: " ++
         jsOr data.error "Неизвестная ошибка") "danger"]
  | .err msg _ _ =>
    [.consoleError ("Error syncing clients: " ++ msg),
     .showStatus ("❌ Ошибка: " ++ msg) "danger"]

/-! ## Reconciliation engine

The set computation itself runs in the back-end sync-clients endpoint,
which is not among the repository files here; only its front-end caller
(`syncClients`) is.  It is therefore modelled from the spec. -/

/-- The report the reconciliation computes for remote set `R` and database
set `D`. -/
structure ReconciliationReport where
  orphaned : Finset String
  newClients : Finset String
  clientsOnServer : Nat
  clientsInDb : Nat
  clientsRemoved : Nat

/-- Modelled from the spec: the Reconciliation Engine behind the
sync-clients endpoint (absent from the provided sources).  "fetch the
authoritative client-identifier set `R` ...; load the persisted identifier
set `D`; compute `orphaned = D \ R` (remove from persistence ...) and
`new = R \ D` (report only ...).  The report also carries `|R|`, `|D|`,
and `|orphaned|`." -/
def reconcile (R D : Finset String) : ReconciliationReport :=
  { orphaned := D \ R
    newClients := R \ D
    clientsOnServer := R.card
    clientsInDb := D.card
    clientsRemoved := (D \ R).card }

/-! ## Per-kind button gating of the lifecycle handlers

Each lifecycle handler disables exactly the buttons matching its own
`onclick` selector (`showButtonLoading` sets `disabled = true`,
`restoreButton` clears it in the handler's `finally`).  A disabled button
does not fire its `onclick`, so a click while that kind is in flight
dispatches nothing; buttons of the other kinds stay enabled.  This is the
whole client-side exclusion mechanism of the source. -/

/-- The lifecycle operations of the server-actions/reinstall modules. -/
inductive OpKind where
  | install
  | configure
  | start
  | reinstall
  | updateAgent
  deriving DecidableEq, Repr

/-- The `onclick` substring each handler's `querySelectorAll` uses to find
the buttons it disables. -/
def OpKind.selector : OpKind → String
  | .install => "installOpenVPN"
  | .configure => "configureOpenVPN"
  | .start => "startOpenVPN"
  | .reinstall => "reinstallOpenVPN"
  | .updateAgent => "updateAgent"

/-- The list of all lifecycle operation kinds. -/
def OpKind.all : List OpKind :=
  [.install, .configure, .start, .reinstall, .updateAgent]

/-- Whether a handler trace dispatches at least one `apiRequest`. -/
def dispatches (tr : List Effect) : Bool :=
  tr.any Effect.isApiPost

/-- The console-log and status-display writes of a trace, in order. -/
def logOrStatusTrace (tr : List Effect) : List Effect :=
  tr.filter Effect.isLogOrStatus

/-- The state-changing effects of a trace (everything except console
logging). -/
def stateChanges (tr : List Effect) : List Effect :=
  tr.filter Effect.isStateChange

/-! ## Specification-side definitions used for refinement statements -/

/-- The escaping described by the claim: each of the five characters
`& < > " '` becomes its entity, every other character is left
unchanged. -/
def escapeSpecChar (c : Char) : String :=
  if c = '&' then "&amp;"
  else if c = '<' then "&lt;"
  else if c = '>' then "&gt;"
  else if c = '"' then "&quot;"
  else if c = '\'' then "&#039;"
  else String.singleton c

/-- The status display mapping described by the claim: the three literals
map to their fixed labels, every other literal passes through verbatim. -/
def statusLabelSpec (st : String) : String :=
  if st = "running" then "✅ Работает"
  else if st = "stopped" then "⛔ Остановлен"
  else if st = "error" then "❌ Ошибка"
  else st

/-- Markup safety of an HTML text node string: every `<` character starts
the program's own `<br>` tag (so no `<` contributed by the escaped remote
output survives). -/
def brOnly : List Char → Bool
  | [] => true
  | c :: rest => (if c = '<' then "br>".data.isPrefixOf rest else true) && brOnly rest

/-! # Theorems -/

/-- Claim C7 (code bug): for a successful download response carrying
`Content-Disposition: attachment; filename="alice.ovpn"`, the code saves
the file as `alice.ovpn"` — the regex `/filename="?(.+)"?/` captures the
closing quote because `.+` is greedy and the trailing `"?` matches the
empty string — not as `alice.ovpn` as the claim states; with the header
absent the default `alice.ovpn` is used as claimed. -/
theorem downloadFilename_keeps_closing_quote :
    downloadFilename "alice" (some "attachment; filename=\"alice.ovpn\"") =
      "alice.ovpn\"" ∧
    "alice.ovpn\"" ≠ "alice.ovpn" ∧
    downloadFilename "alice" none = "alice.ovpn" := by
  refine ⟨by decide, by decide, by decide⟩

/-- Outside the `Object.prototype` property names, the displayed status
text of `checkStatus` agrees with the claim's mapping: the object-literal
lookup with `|| data.status` fallback equals the three fixed labels on
`running`/`stopped`/`error` and the verbatim literal on everything else. -/
theorem statusText_eq_spec (st : String) (h : st ∉ protoProps) :
    jsOr (jsObjGet statusTextMap st) st = statusLabelSpec st := by
  by_cases h1 : st = "running"
  · subst h1; decide
  by_cases h2 : st = "stopped"
  · subst h2; decide
  by_cases h3 : st = "error"
  · subst h3; decide
  have b1 : (st == "running") = false := beq_eq_false_iff_ne.mpr h1
  have b2 : (st == "stopped") = false := beq_eq_false_iff_ne.mpr h2
  have b3 : (st == "error") = false := beq_eq_false_iff_ne.mpr h3
  simp [statusTextMap, statusLabelSpec, jsObjGet, jsOr, List.lookup, b1, b2, b3,
    h, h1, h2, h3]

/-- Claim C4 (counterexample): the status literal `toString` is neither of
the three mapped literals, so the claim requires it to display verbatim —
but `{...}['toString']` finds the method inherited from
`Object.prototype`, a truthy value, so the page displays the stringified
native function instead of the literal. -/
theorem checkStatus_protoProperty_not_verbatim :
    checkStatusEffects "1" (.ok ⟨true, "toString", none⟩) =
      [.consoleLog "Checking server status: 1",
       .showStatus "Проверяем статус сервера..." "info",
       .apiPost "/api/servers/1/check-status/" .noBody,
       .showStatus ("Статус сервера: " ++ protoDisplay "toString") "warning",
       .reloadPage 1000] ∧
    protoDisplay "toString" ≠ "toString" := by
  refine ⟨by decide, by decide⟩

/-- Claim C4 (amended): on a successful check-status response,
`checkStatus` maps exactly the three literals `running`/`stopped`/`error`
to their fixed display labels, and every other literal that is not an
`Object.prototype` property name displays verbatim (no coercion and no
failure); the twelve inherited property names (`toString`, `constructor`,
`__proto__`, ...) instead display the stringified inherited member. -/
theorem checkStatus_status_mapping (serverId st : String) (err : Option String)
    (h : st ∉ protoProps) :
    checkStatusEffects serverId (.ok ⟨true, st, err⟩) =
      [.consoleLog ("Checking server status: " ++ serverId),
       .showStatus "Проверяем статус сервера..." "info",
       .apiPost ("/api/servers/" ++ serverId ++ "/check-status/") .noBody,
       .showStatus ("Статус сервера: " ++ statusLabelSpec st)
         (if st = "running" then "success" else "warning"),
       .reloadPage 1000] := by
  simp [checkStatusEffects, statusText_eq_spec st h]

/-- Witness for `checkStatus_status_mapping`: the concrete literal
`degraded` (not mapped, not an `Object.prototype` property) displays
verbatim. -/
theorem checkStatus_status_mapping_witness :
    checkStatusEffects "1" (.ok ⟨true, "degraded", none⟩) =
      [.consoleLog "Checking server status: 1",
       .showStatus "Проверяем статус сервера..." "info",
       .apiPost "/api/servers/1/check-status/" .noBody,
       .showStatus ("Статус сервера: " ++ statusLabelSpec "degraded") "warning",
       .reloadPage 1000] :=
  checkStatus_status_mapping "1" "degraded" none (by decide)

/-- The source's reinstall confirmation guard
`!confirmText || (confirmText !== 'REINSTALL' && confirmText.toLowerCase() !== 'reinstall')`
fails (i.e. the flow proceeds) exactly when the typed text, lowercased,
is the word `reinstall`. -/
theorem reinstallGuard_iff (t : String) :
    (t = "" || (t ≠ "REINSTALL" && jsToLowerCase t ≠ "reinstall")) = false ↔
      jsToLowerCase t = "reinstall" := by
  constructor
  · intro h
    simp only [Bool.or_eq_false_iff, Bool.and_eq_false_iff, decide_eq_false_iff_not,
      Decidable.not_not] at h
    rcases h with ⟨hne, h2⟩
    rcases h2 with rfl | h2
    · decide
    · exact h2
  · intro h
    have hne : t ≠ "" := by
      intro h0
      rw [h0] at h
      exact absurd h (by decide)
    simp [hne, h]

/-- Claim C2 (confirmed): `reinstallOpenVPN` dispatches the reinstall request
iff the first confirmation dialog is accepted and the typed confirmation
text, lowercased, equals `reinstall` (so `REINSTALL` and every case-variant
are accepted); with the first dialog accepted and any other typed text, or
a cancelled prompt, the trace ends at the cancellation notice and contains
no request. -/
theorem reinstallOpenVPN_confirmation (serverId : String) (confirmed : Bool)
    (confirmText : Option String) (progressTicks : Nat) (isConnected : Bool)
    (outcome : Outcome ReinstallData) :
    (dispatches (reinstallOpenVPNEffects serverId confirmed confirmText
        progressTicks isConnected outcome) = true ↔
      confirmed = true ∧ ∃ t, confirmText = some t ∧ jsToLowerCase t = "reinstall") ∧
    (confirmed = true →
      (∀ t, confirmText = some t → jsToLowerCase t ≠ "reinstall") →
      reinstallOpenVPNEffects serverId confirmed confirmText progressTicks
          isConnected outcome =
        [.consoleLog ("reinstallOpenVPN function called with serverId: " ++ serverId),
         .showStatus "Переустановка отменена" "warning"]) := by
  cases confirmed with
  | false =>
    constructor
    · simp [reinstallOpenVPNEffects, dispatches, Effect.isApiPost]
    · intro h; exact absurd h (by decide)
  | true =>
    cases confirmText with
    | none =>
      constructor
      · simp [reinstallOpenVPNEffects, dispatches, Effect.isApiPost]
      · intro _ _
        simp [reinstallOpenVPNEffects]
    | some t =>
      by_cases hg : jsToLowerCase t = "reinstall"
      · have hguard := (reinstallGuard_iff t).mpr hg
        constructor
        · constructor
          · intro _
            exact ⟨rfl, t, rfl, hg⟩
          · intro _
            simp only [reinstallOpenVPNEffects, Bool.not_true, Bool.false_eq_true,
              if_false, hguard]
            simp [dispatches, Effect.isApiPost, List.any_append]
        · intro _ hno
          exact absurd hg (hno t rfl)
      · have hguard : (t = "" || (t ≠ "REINSTALL" && jsToLowerCase t ≠ "reinstall")) = true := by
          rcases Bool.eq_false_or_eq_true
            (t = "" || (t ≠ "REINSTALL" && jsToLowerCase t ≠ "reinstall")) with h | h
          · exact h
          · exact absurd ((reinstallGuard_iff t).mp h) hg
        constructor
        · constructor
          · intro hd
            exfalso
            simp only [reinstallOpenVPNEffects, Bool.not_true, Bool.false_eq_true,
              if_false, hguard, if_true] at hd
            simp [dispatches, Effect.isApiPost] at hd
          · rintro ⟨-, t', ht', hlow⟩
            cases Option.some.inj ht'
            exact absurd hlow hg
        · intro _ _
          simp only [reinstallOpenVPNEffects, Bool.not_true, Bool.false_eq_true,
            if_false, hguard, if_true]
          rfl

/-- Witness for `reinstallOpenVPN_confirmation`: at the concrete inputs
(first dialog accepted, typed text `ReInStAll`) the dispatch happens. -/
theorem reinstallOpenVPN_confirmation_witness :
    dispatches (reinstallOpenVPNEffects "1" true (some "ReInStAll") 0 false
      (.ok ⟨true, none, none, none, none⟩)) = true :=
  (reinstallOpenVPN_confirmation "1" true (some "ReInStAll") 0 false
    (.ok ⟨true, none, none, none, none⟩)).1.mpr ⟨rfl, "ReInStAll", rfl, by decide⟩

/-- Claim C5 (confirmed): when the opening confirmation dialog of
`installOpenVPN`, `configureOpenVPN`, `startOpenVPN` or `reinstallOpenVPN`
returns false, the handler returns immediately: the three simple handlers
produce no effect at all, and `reinstallOpenVPN` produces only its opening
`console.log` — in particular no API request, no button disabling, and no
status message. -/
theorem lifecycle_declined_no_effects (serverId : String) (isConnected : Bool)
    (outL : Outcome LifecycleData) (confirmText : Option String)
    (progressTicks : Nat) (outR : Outcome ReinstallData) :
    installOpenVPNEffects serverId false isConnected outL = [] ∧
    configureOpenVPNEffects serverId false isConnected outL = [] ∧
    startOpenVPNEffects serverId false isConnected outL = [] ∧
    reinstallOpenVPNEffects serverId false confirmText progressTicks
        isConnected outR =
      [.consoleLog ("reinstallOpenVPN function called with serverId: " ++ serverId)] ∧
    stateChanges (reinstallOpenVPNEffects serverId false confirmText
        progressTicks isConnected outR) = [] := by
  refine ⟨rfl, rfl, rfl, rfl, ?_⟩
  simp [reinstallOpenVPNEffects, stateChanges, Effect.isStateChange]

/-- Claim C1 (counterexample): the field value `"a "` contains a space, a
character outside `^[A-Za-z0-9_-]+$`, so the claim requires a validation
error and no API request — but `createClient` trims the value first and
dispatches the create-client request, showing no validation alert. -/
theorem createClient_untrimmed_name_dispatches :
    isValidClientName "a " = false ∧
    dispatches (createClientEffects "a " "" "1" false
      (.ok ⟨true, some "7", none, none, none⟩)) = true ∧
    ((createClientEffects "a " "" "1" false
        (.ok ⟨true, some "7", none, none, none⟩)).all
      (fun e => !(e == .showAlert "Имя клиента может содержать только латинские буквы, цифры, дефис и подчеркивание" "")) = true) := by
  refine ⟨by decide, by decide, by decide⟩

/-- Claim C1 (amended): for every client name whose *trimmed* value matches
`^[A-Za-z0-9_-]+$` (and passing the optional email check), `createClient`
issues the create-client API request; for every name whose trimmed value is
empty or contains any other character, it shows a validation alert and
returns without issuing any API request. -/
theorem createClient_validation (rawName rawEmail serverId : String)
    (isConnected : Bool) (outcome : Outcome CreateClientData) :
    (isValidClientName (jsTrim rawName) = true →
      ((jsTrim rawEmail) = "" ∨ isValidEmail (jsTrim rawEmail) = true) →
      dispatches (createClientEffects rawName rawEmail serverId isConnected
        outcome) = true) ∧
    (isValidClientName (jsTrim rawName) = false →
      (createClientEffects rawName rawEmail serverId isConnected outcome =
          [.showAlert "Введите имя клиента" ""] ∨
       createClientEffects rawName rawEmail serverId isConnected outcome =
          [.showAlert "Имя клиента может содержать только латинские буквы, цифры, дефис и подчеркивание" ""]) ∧
      dispatches (createClientEffects rawName rawEmail serverId isConnected
        outcome) = false) := by
  constructor
  · intro hname hemail
    have hne : (jsTrim rawName) ≠ "" := by
      intro h0
      rw [h0] at hname
      exact absurd hname (by decide)
    have hemailguard : ((jsTrim rawEmail) ≠ "" && !isValidEmail (jsTrim rawEmail)) = false := by
      rcases hemail with h | h <;> simp [h]
    simp only [createClientEffects, hne, hname, hemailguard, if_neg, if_false,
      Bool.not_true, ite_false, ite_true, if_pos]
    simp [dispatches, Effect.isApiPost, hne]
  · intro hname
    by_cases h0 : (jsTrim rawName) = ""
    · constructor
      · exact Or.inl (by simp [createClientEffects, h0])
      · simp [createClientEffects, h0, dispatches, Effect.isApiPost]
    · constructor
      · exact Or.inr (by simp [createClientEffects, h0, hname])
      · simp [createClientEffects, h0, hname, dispatches, Effect.isApiPost]

/-- Witness for `createClient_validation`: the valid trimmed name `bob`
with no email dispatches the request. -/
theorem createClient_validation_witness :
    dispatches (createClientEffects "bob" "" "1" false
      (.ok ⟨true, some "7", none, none, none⟩)) = true :=
  (createClient_validation "bob" "" "1" false
    (.ok ⟨true, some "7", none, none, none⟩)).1 (by decide) (Or.inl (by decide))

/-- Claim C6 (counterexample): the claim quantifies over *any* two password
values, but an empty entry (or cancelled prompt) takes the early-return
branch: with all other inputs and responses equal, the runs for password
`""` and password `"x"` write different status messages, so the outputs
are not identical. -/
theorem generateSSHKey_empty_password_distinguishable :
    logOrStatusTrace (generateSSHKeyEffects "1" "" true false false
        (.ok ⟨true, some "ok", none, "ed25519", none⟩)) ≠
      logOrStatusTrace (generateSSHKeyEffects "1" "x" true false false
        (.ok ⟨true, some "ok", none, "ed25519", none⟩)) := by
  decide

/-- Claim C6 (amended): for any two *non-empty* password values supplied to
`generateSSHKey` (with all other inputs and responses equal), every string
written to the console logs and to the on-page status display is
identical: the SSH password never influences — and in particular never
appears in — any log or status output, on success or failure. -/
theorem generateSSHKey_password_noninterference (serverId p₁ p₂ : String)
    (useEd25519 clearPassword showKeyOk : Bool) (outcome : Outcome SSHKeyData)
    (h₁ : p₁ ≠ "") (h₂ : p₂ ≠ "") :
    logOrStatusTrace (generateSSHKeyEffects serverId p₁ useEd25519
        clearPassword showKeyOk outcome) =
      logOrStatusTrace (generateSSHKeyEffects serverId p₂ useEd25519
        clearPassword showKeyOk outcome) := by
  simp only [generateSSHKeyEffects, h₁, h₂, if_neg, if_false]
  simp [logOrStatusTrace, List.filter_append, Effect.isLogOrStatus]

/-- Witness for `generateSSHKey_password_noninterference`: the two concrete
non-empty passwords `hunter2` and `swordfish` produce identical log and
status output. -/
theorem generateSSHKey_password_noninterference_witness :
    logOrStatusTrace (generateSSHKeyEffects "1" "hunter2" true false false
        (.ok ⟨true, some "ok", none, "ed25519", none⟩)) =
      logOrStatusTrace (generateSSHKeyEffects "1" "swordfish" true false false
        (.ok ⟨true, some "ok", none, "ed25519", none⟩)) :=
  generateSSHKey_password_noninterference "1" "hunter2" "swordfish" true false
    false (.ok ⟨true, some "ok", none, "ed25519", none⟩) (by decide) (by decide)

/-- Claim C10 (counterexample): an ok response whose body is not valid JSON
makes `apiRequest` throw (the success path's `response.json()` has no
catch), refuting "throws iff the response is not ok"; and a non-ok response
whose body has an *empty-string* `error` field falls back to the HTTP
message (the `||` tests truthiness, not presence), refuting the claimed
message selection. -/
theorem apiRequest_counterexample :
    apiRequest ⟨true, 200, none⟩ = .jsonRejection ∧
    (ApiReqResult.jsonRejection).throws = true ∧
    apiRequest ⟨false, 500, some (.obj [("error", .str "")])⟩ =
      .thrown "HTTP error! status: 500" := by
  refine ⟨rfl, rfl, rfl⟩

/-- Claim C10 (amended): `apiRequest` throws if and only if the response is
not ok or its body is not valid JSON; on a non-ok response the thrown
message is the body's `error` field, rendered as a string by the `Error`
constructor, when the body parses as JSON with a truthy `error` field
(in particular a non-empty string field is thrown verbatim), and the
string `HTTP error! status: {status}` when the field is absent or falsy;
on an ok response with a JSON body it returns the parsed body unchanged. -/
theorem apiRequest_spec (r : FetchResponse) :
    ((apiRequest r).throws = true ↔ (r.ok = false ∨ r.body = none)) ∧
    (∀ j, r.ok = true → r.body = some j → apiRequest r = .ok j) ∧
    (r.ok = false → ∀ v,
      (r.body.getD (.obj [])).getField "error" = some v → v.truthy = true →
      apiRequest r = .thrown v.display) ∧
    (r.ok = false →
      ((r.body.getD (.obj [])).getField "error" = none ∨
       (∃ v, (r.body.getD (.obj [])).getField "error" = some v ∧
         v.truthy = false)) →
      apiRequest r = .thrown ("HTTP error! status: " ++ toString r.status)) ∧
    (r.ok = false → ∀ e, e ≠ "" →
      (r.body.getD (.obj [])).getField "error" = some (.str e) →
      apiRequest r = .thrown e) := by
  obtain ⟨ok, status, body⟩ := r
  cases ok with
  | true =>
    refine ⟨?_, ?_, ?_, ?_, ?_⟩
    · cases body with
      | none => simp [apiRequest, ApiReqResult.throws]
      | some j => simp [apiRequest, ApiReqResult.throws]
    · intro j _ hbody
      subst hbody
      simp [apiRequest]
    · intro h; exact Bool.noConfusion h
    · intro h; exact Bool.noConfusion h
    · intro h; exact Bool.noConfusion h
  | false =>
    have hthrows : (apiRequest ⟨false, status, body⟩).throws = true := by
      simp only [apiRequest, Bool.false_eq_true, if_false]
      cases (body.getD (JVal.obj [])).getField "error" with
      | none => rfl
      | some v => cases hv : v.truthy <;> simp [hv, ApiReqResult.throws]
    refine ⟨?_, ?_, ?_, ?_, ?_⟩
    · simp [hthrows]
    · intro j h; exact Bool.noConfusion h
    · intro _ v hfield htruthy
      simp [apiRequest, hfield, htruthy]
    · rintro _ (hnone | ⟨v, hfield, hv⟩)
      · simp [apiRequest, hnone]
      · simp [apiRequest, hfield, hv]
    · intro _ e hne hfield
      simp [apiRequest, hfield, JVal.truthy, hne, JVal.display]

/-- Witness for `apiRequest_spec`: a concrete 404 response with
`error: "boom"` throws exactly `boom`, and a 500 response with the truthy
non-string field `error: 42` throws its stringification. -/
theorem apiRequest_spec_witness :
    apiRequest ⟨false, 404, some (.obj [("error", .str "boom")])⟩ =
      .thrown "boom" ∧
    apiRequest ⟨false, 500, some (.obj [("error", .num 42)])⟩ =
      .thrown ((JVal.num 42).display) :=
  ⟨(apiRequest_spec ⟨false, 404, some (.obj [("error", .str "boom")])⟩).2.2.2.2
      rfl "boom" (by decide) rfl,
   (apiRequest_spec ⟨false, 500, some (.obj [("error", .num 42)])⟩).2.2.1
      rfl (.num 42) rfl (by decide)⟩

/-- Claim C3 (confirmed; the set computation is modelled from the spec, its
back-end implementation not being among the provided files): the
reconciliation computes `orphaned = D \ R` and `new = R \ D`, the
cardinality identity `|D| - |orphaned| = |D ∩ R|` holds exactly, and the
front-end `syncClients` issues only the one sync request — a response with
`new_clients` produces a warning listing them and never an import
request. -/
theorem reconciliation_set_law (R D : Finset String) (serverId : String)
    (data : SyncData) :
    ((reconcile R D).orphaned = D \ R ∧
     (reconcile R D).newClients = R \ D ∧
     D.card - (reconcile R D).orphaned.card = (D ∩ R).card) ∧
    (syncClientsEffects serverId (.ok data)).filter Effect.isApiPost =
      [.apiPost ("/api/servers/" ++ serverId ++ "/sync-clients/") .noBody] ∧
    (data.success = true → jsNonEmptyList data.new_clients = true →
      Effect.showStatus ("⚠️ На сервере найдены новые клиенты, которых нет в БД: " ++
          String.intercalate ", " (data.new_clients.getD [])) "warning" ∈
        syncClientsEffects serverId (.ok data)) := by
  refine ⟨⟨rfl, rfl, ?_⟩, ?_, ?_⟩
  · have h := Finset.card_sdiff_add_card_inter D R
    show D.card - (D \ R).card = (D ∩ R).card
    omega
  · simp only [syncClientsEffects, List.filter_append, List.filter_cons,
      List.filter_nil, Effect.isApiPost]
    cases data.success with
    | true =>
      simp only [if_true, List.filter_append, List.filter_cons, List.filter_nil,
        Effect.isApiPost]
      by_cases ho : jsNonEmptyList data.orphaned_clients <;>
        by_cases hn : jsNonEmptyList data.new_clients <;>
          simp [ho, hn, Effect.isApiPost]
    | false => simp [Effect.isApiPost]
  · intro hs hn
    simp [syncClientsEffects, hs, hn]

/-- Witness for `reconciliation_set_law`: End-to-end scenario B of the
spec, `R = {alice, bob}`, `D = {alice, carol}`, together with the response
that reports the new client `bob`: the warning listing `bob` is shown. -/
theorem reconciliation_set_law_witness :
    Effect.showStatus ("⚠️ На сервере найдены новые клиенты, которых нет в БД: " ++
        String.intercalate ", " ((some ["bob"] : Option (List String)).getD [])) "warning" ∈
      syncClientsEffects "1"
        (.ok ⟨true, some "ok", some 2, some 2, some 1, some ["carol"],
          some ["bob"], none⟩) :=
  (reconciliation_set_law {"alice", "bob"} {"alice", "carol"} "1"
    ⟨true, some "ok", some 2, some 2, some 1, some ["carol"], some ["bob"],
      none⟩).2.2 rfl (by decide)

/-- Composition of the three per-character replacements of the terminal
pipeline applied to one input character. -/
def terminalChunk (c : Char) : List Char :=
  (escPiece c).flatMap fun b => (brPiece b).flatMap nbspPiece

/-- The list `flatMap` operation is associative. -/
theorem list_flatMap_assoc {α β γ : Type} (l : List α) (f : α → List β)
    (g : β → List γ) :
    (l.flatMap f).flatMap g = l.flatMap fun x => (f x).flatMap g := by
  induction l with
  | nil => rfl
  | cons x xs ih => simp [List.flatMap_cons, List.flatMap_append, ih]

/-- The terminal pipeline processes its input one character at a time. -/
theorem terminalHtml_data (text : String) :
    (terminalHtml text).data = text.data.flatMap terminalChunk := by
  have h1 : (terminalHtml text).data =
      ((text.data.flatMap escPiece).flatMap brPiece).flatMap nbspPiece := rfl
  rw [h1, list_flatMap_assoc, list_flatMap_assoc]
  rfl

/-- Piecewise, `escPiece` agrees with the claim's description of the escaping. -/
theorem escPiece_eq_spec (c : Char) : escPiece c = (escapeSpecChar c).data := by
  by_cases h1 : c = '&'
  · subst h1; decide
  by_cases h2 : c = '<'
  · subst h2; decide
  by_cases h3 : c = '>'
  · subst h3; decide
  by_cases h4 : c = '"'
  · subst h4; decide
  by_cases h5 : c = '\''
  · subst h5; decide
  have b1 : (c == '&') = false := beq_eq_false_iff_ne.mpr h1
  have b2 : (c == '<') = false := beq_eq_false_iff_ne.mpr h2
  have b3 : (c == '>') = false := beq_eq_false_iff_ne.mpr h3
  have b4 : (c == '"') = false := beq_eq_false_iff_ne.mpr h4
  have b5 : (c == '\'') = false := beq_eq_false_iff_ne.mpr h5
  simp [escPiece, escapeMap, List.lookup, b1, b2, b3, b4, b5, escapeSpecChar,
    h1, h2, h3, h4, h5, String.singleton]

/-- A `brOnly` list stays `brOnly` when extended on the right by a
`brOnly` list: every `<` already carries its `br>` within the left part. -/
theorem brOnly_append (xs ys : List Char) (hy : brOnly ys = true) :
    brOnly xs = true → brOnly (xs ++ ys) = true := by
  induction xs with
  | nil => intro _; simpa using hy
  | cons c rest ih =>
    intro hx
    simp only [brOnly, Bool.and_eq_true] at hx
    obtain ⟨hA, hB⟩ := hx
    simp only [List.cons_append, brOnly, Bool.and_eq_true]
    refine ⟨?_, ih hB⟩
    by_cases hc : c = '<'
    · rw [if_pos hc] at hA ⊢
      rw [List.isPrefixOf_iff_prefix] at hA ⊢
      exact hA.trans (List.prefix_append rest ys)
    · rw [if_neg hc]

/-- A `flatMap` of `brOnly` chunks is `brOnly`. -/
theorem brOnly_flatMap (l : List Char) (f : Char → List Char)
    (hf : ∀ c, brOnly (f c) = true) : brOnly (l.flatMap f) = true := by
  induction l with
  | nil => rfl
  | cons c rest ih =>
    rw [List.flatMap_cons]
    exact brOnly_append _ _ ih (hf c)

/-- Each character's terminal chunk is `brOnly`: the only chunk containing
`<` is the program's own `<br>` produced from a newline; the escaped
markup characters produce entities with no raw `<`. -/
theorem brOnly_terminalChunk (c : Char) : brOnly (terminalChunk c) = true := by
  by_cases h1 : c = '&'
  · subst h1; decide
  by_cases h2 : c = '<'
  · subst h2; decide
  by_cases h3 : c = '>'
  · subst h3; decide
  by_cases h4 : c = '"'
  · subst h4; decide
  by_cases h5 : c = '\''
  · subst h5; decide
  by_cases h6 : c = '\n'
  · subst h6; decide
  by_cases h7 : c = ' '
  · subst h7; decide
  have b1 : (c == '&') = false := beq_eq_false_iff_ne.mpr h1
  have b2 : (c == '<') = false := beq_eq_false_iff_ne.mpr h2
  have b3 : (c == '>') = false := beq_eq_false_iff_ne.mpr h3
  have b4 : (c == '"') = false := beq_eq_false_iff_ne.mpr h4
  have b5 : (c == '\'') = false := beq_eq_false_iff_ne.mpr h5
  have hchunk : terminalChunk c = [c] := by
    simp [terminalChunk, escPiece, escapeMap, List.lookup, b1, b2, b3, b4, b5,
      brPiece, nbspPiece, h6, h7]
  rw [hchunk]
  simp [brOnly, h2]

/-- Claim C9 (confirmed): `escapeHtml` replaces every occurrence of the five
characters `& < > " '` by their HTML entities and leaves every
other character unchanged; consequently every `<` in the HTML string
`appendToTerminal` inserts into the terminal DOM begins the program's own
`<br>` tag — no unescaped markup character from the remote output
survives. -/
theorem escapeHtml_spec_and_terminal_safety :
    (∀ text : String, (escapeHtml text).data =
        text.data.flatMap fun c => (escapeSpecChar c).data) ∧
    (∀ text : String, brOnly (terminalHtml text).data = true) := by
  constructor
  · intro text
    show text.data.flatMap escPiece = _
    induction text.data with
    | nil => rfl
    | cons c rest ih =>
      rw [List.flatMap_cons, List.flatMap_cons, ih, escPiece_eq_spec]
  · intro text
    rw [terminalHtml_data]
    exact brOnly_flatMap _ _ brOnly_terminalChunk

end OvpnControl
